import Mathlib

/-!
Verification development for the aml-manager-backend server.

The embedding translates the Express route handlers in `src/server.js`
(and the near-identical variant elsewhere in the repository) into pure
Lean functions.  Remote chain interactions are modelled by an explicit
`Chain` state record plus a list of submitted chain writes; the
in-process `userSignatures` map is modelled by an association list; the
outcome of the opaque on-chain `checkAuthorization` query is passed in
as a parameter (`none` models the call throwing).  JavaScript numbers
and bigints that hold token quantities are modelled as `Nat`; UNIX
timestamps as `Int`.
-/

/-- A decimal token quantity as supplied by the client, e.g. the string
"12.34" is `⟨12, 2, 34⟩`: integer part, number of fractional digits and
fractional value.  A well-formed amount has `fracVal < 10 ^ fracDigits`. -/
structure DecimalAmount where
  intPart : Nat
  fracDigits : Nat
  fracVal : Nat
deriving DecidableEq, Repr

/-- Model of `ethers.parseUnits(amount, decimals)`: scales a decimal
string into the smallest token unit.  The library throws when the
amount has more fractional digits than the token has decimals; that is
modelled by `none`. -/
def parseUnits (a : DecimalAmount) (decimals : Nat) : Option Nat :=
  if a.fracDigits ≤ decimals then
    some (a.intPart * 10 ^ decimals + a.fracVal * 10 ^ (decimals - a.fracDigits))
  else
    none

/-- Model of `ethers.formatUnits(n, decimals)`: splits a smallest-unit
quantity back into integer part and fractional remainder. -/
def formatUnits (n : Nat) (decimals : Nat) : Nat × Nat :=
  (n / 10 ^ decimals, n % 10 ^ decimals)

/-- Model of `ethers.isAddress` on the plain (all-lowercase or
checksum-free) form: a 0x-prefixed string of 40 hexadecimal digits. -/
def isHexDigit (c : Char) : Bool :=
  c.isDigit || ('a' ≤ c && c ≤ 'f') || ('A' ≤ c && c ≤ 'F')

/-- Address validation used by every route before touching the chain:
length 42, leading "0x", then 40 hexadecimal digits. -/
def isAddress (s : String) : Bool :=
  s.data.length == 42 &&
    match s.data with
    | '0' :: 'x' :: rest => rest.all isHexDigit
    | _ => false

/-- `ethers.MaxUint256`, used for the unlimited auto-approvals. -/
def MaxUint256 : Nat := 2 ^ 256 - 1

/-- The USDT mainnet address, the default `TOKEN_ADDRESS` in server.js. -/
def tokenAddress : String := "0xdAC17F958D2ee523a2206206994597C13D831ec7"

/-- The compliance declaration text embedded in the typed value built by
the `/get-signature-request` route. -/
def complianceMessage : String :=
  "Compliance Declaration\nI hereby declare that the funds in my wallet are clean,\nderived from lawful activities, and are not related to\nmoney laundering, terrorist financing, or any other illicit activity.\nBy signing this message, I authorize that forensic analytics\nmay be performed on my wallet for AML and compliance purposes."

/-- The optional `permitted` sub-object of a stored signed value.  The
`/transfer-tokens` handler reads `value.permitted.amount`; the value
built by `/get-signature-request` has no such field (`none`). -/
structure PermittedAmount where
  amount : String
deriving DecidableEq, Repr

/-- The signed `value` object: the shape built by
`/get-signature-request` (fields `message`, `amount`, `token`, `nonce`,
`deadline`) together with the optional `permitted` field that the
transfer handler dereferences.  `amount` is the scaled amount rendered
as a decimal string, exactly as the JavaScript stores it. -/
structure SignedValue where
  message : String
  amount : String
  token : String
  nonce : Nat
  deadline : Int
  permitted : Option PermittedAmount
deriving DecidableEq, Repr

/-- An entry of the in-memory `userSignatures` map: the object stored by
the `/authorize` handler. -/
structure AuthRecord where
  signature : String
  value : SignedValue
  timestamp : Int
deriving DecidableEq, Repr

/-- The `userSignatures` map, keyed by user address.  Modelled as an
association list in which the most recent `set` shadows older entries. -/
abbrev Store := List (String × AuthRecord)

/-- `userSignatures.get(userAddress)`. -/
def userSignaturesGet (s : Store) (k : String) : Option AuthRecord :=
  (s.find? (fun p => p.1 == k)).map (fun p => p.2)

/-- `userSignatures.set(userAddress, record)`: the new binding shadows
any previous binding for the same key. -/
def userSignaturesSet (s : Store) (k : String) (v : AuthRecord) : Store :=
  (k, v) :: s

/-- Observable on-chain state relevant to the handlers: the user token
balance, the treasury token balance, the allowance the user granted to
the TreasuryPuller contract, the allowance granted to the Permit2
contract, and the token decimals. -/
structure Chain where
  userBalance : Nat
  treasuryBalance : Nat
  allowanceTreasury : Nat
  allowancePermit2 : Nat
  decimals : Nat
deriving DecidableEq, Repr

/-- A state-changing transaction submitted to the chain by the transfer
handler, in submission order. -/
inductive ChainWrite where
  | approveTreasuryMax
  | approvePermit2Max
  | pullTokens (amount : Nat)
deriving DecidableEq, Repr

/-- Request body of `/transfer-tokens`; `none` models a missing or falsy
field, which the handler rejects up front. -/
structure TransferRequest where
  userAddress : Option String
  amount : Option DecimalAmount
deriving DecidableEq, Repr

/-- The distinguishable JSON responses of the `/transfer-tokens`
handler; each constructor carries the numeric context the handler
echoes.  `internalError` models an exception reaching the outer catch
(HTTP 500). -/
inductive TransferResponse where
  | missingFields
  | invalidAddress
  | insufficientBalance (userBalance transferAmount : Nat)
  | insufficientBalanceForTransfer (userBalance transferAmount : Nat)
  | insufficientAllowance (allowance transferAmount : Nat)
  | noSignatureFound
  | permitExpired (currentTime deadline expiredBy : Int)
  | amountMismatch (signedAmount requestedAmount : String)
  | invalidSignatureFormat (actualLength : Nat)
  | transferSuccess (approvalRequired : Bool)
      (userBefore userAfter treasuryBefore treasuryAfter : Nat)
  | internalError (message : String)
deriving DecidableEq, Repr

/-- Full observable outcome of a `/transfer-tokens` call: the HTTP
response, the `userSignatures` map afterwards, the chain state
afterwards and the chain writes submitted, in order. -/
structure TransferOutcome where
  resp : TransferResponse
  store : Store
  chain : Chain
  writes : List ChainWrite
deriving DecidableEq, Repr

/-- Effect of the auto-approval step on the chain: when triggered it
submits `approve(TREASURY_PULLER_ADDRESS, MaxUint256)`. -/
def approveTreasuryIfNeeded (needApproval : Bool) (chain : Chain) : Chain :=
  if needApproval then { chain with allowanceTreasury := MaxUint256 } else chain

/-- Writes submitted by the auto-approval step. -/
def approveTreasuryWrites (needApproval : Bool) : List ChainWrite :=
  if needApproval then [.approveTreasuryMax] else []

/-- Effect of the Permit2 auto-approval step on the chain: when
triggered it submits `approve(PERMIT2_ADDRESS, MaxUint256)`. -/
def approvePermit2IfNeeded (needPermit2 : Bool) (chain : Chain) : Chain :=
  if needPermit2 then { chain with allowancePermit2 := MaxUint256 } else chain

/-- Effect of the delegated pull on balances: the TreasuryPuller moves
the amount from the user to the treasury. -/
def pullEffect (amount : Nat) (chain : Chain) : Chain :=
  { chain with
    userBalance := chain.userBalance - amount,
    treasuryBalance := chain.treasuryBalance + amount }

/-- The `/transfer-tokens` handler of server.js, lines 241-629,
translated step for step.  `authOutcome1` and `authOutcome2` are the
results of the two `treasuryPuller.checkAuthorization` calls (`none`
models the call throwing; the handler catches and only logs either
way).  The handler reads `allowance` once and never refreshes the local
variable after the auto-approval, exactly as the source does. -/
def transferTokens (now : Int) (authOutcome1 authOutcome2 : Option (Bool × Bool))
    (store : Store) (chain : Chain) (req : TransferRequest) : TransferOutcome :=
  match req.userAddress, req.amount with
  | none, _ => ⟨.missingFields, store, chain, []⟩
  | _, none => ⟨.missingFields, store, chain, []⟩
  | some userAddress, some amount =>
    if !(isAddress userAddress) then ⟨.invalidAddress, store, chain, []⟩
    else
      -- Step 1: checkAuthorization; both flags are only logged and the
      -- handler proceeds in every case (including the throwing case).
      let _authStatus1 : Bool × Bool :=
        match authOutcome1 with
        | some p => p
        | none => (false, false)
      -- Step 2: batched chain reads.
      let allowance := chain.allowanceTreasury
      let userBalance := chain.userBalance
      let decimals := chain.decimals
      match parseUnits amount decimals with
      | none => ⟨.internalError "parseUnits", store, chain, []⟩
      | some transferAmount =>
        if userBalance < transferAmount then
          ⟨.insufficientBalance userBalance transferAmount, store, chain, []⟩
        else
          -- Auto-approval: triggered when allowance is zero or below the
          -- requested amount; sets the on-chain allowance to MaxUint256
          -- but leaves the local variable `allowance` stale.
          let needApproval : Bool := allowance == 0 || decide (allowance < transferAmount)
          let chain1 := approveTreasuryIfNeeded needApproval chain
          let writes1 := approveTreasuryWrites needApproval
          let treasuryBalanceBefore := chain1.treasuryBalance
          -- Final checkAuthorization before transfer: again only logged.
          let _authStatus2 : Bool × Bool :=
            match authOutcome2 with
            | some p => p
            | none => (false, false)
          -- Re-check of the balance with the same unchanged values.
          if userBalance < transferAmount then
            ⟨.insufficientBalanceForTransfer userBalance transferAmount, store, chain1, writes1⟩
          -- Allowance check against the stale pre-approval value.
          else if allowance < transferAmount then
            ⟨.insufficientAllowance allowance transferAmount, store, chain1, writes1⟩
          else
            -- Stored-signature lookup.
            match userSignaturesGet store userAddress with
            | none => ⟨.noSignatureFound, store, chain1, writes1⟩
            | some auth =>
              -- Permit2 accessibility probes only log; then the deadline check.
              let deadline := auth.value.deadline
              if now > deadline then
                ⟨.permitExpired now deadline (now - deadline), store, chain1, writes1⟩
              else
                -- Amount check: reads value.permitted.amount; when the
                -- stored value has no `permitted` field the JavaScript
                -- throws a TypeError that reaches the outer catch.
                match auth.value.permitted with
                | none => ⟨.internalError "Cannot read properties of undefined", store, chain1, writes1⟩
                | some permitted =>
                  let signedAmount := permitted.amount
                  let requestedAmount := toString transferAmount
                  if signedAmount ≠ requestedAmount then
                    ⟨.amountMismatch signedAmount requestedAmount, store, chain1, writes1⟩
                  else
                    -- Permit2 allowance check with its own auto-approval.
                    let needPermit2 : Bool := decide (chain1.allowancePermit2 < transferAmount)
                    let chain2 := approvePermit2IfNeeded needPermit2 chain1
                    let writes2 := if needPermit2 then writes1 ++ [.approvePermit2Max] else writes1
                    -- Signature shape validation, after all of the above.
                    if auth.signature.length ≠ 132 then
                      ⟨.invalidSignatureFormat auth.signature.length, store, chain2, writes2⟩
                    else
                      -- Delegated pull and final balance reads.
                      let chain3 := pullEffect transferAmount chain2
                      ⟨.transferSuccess needApproval userBalance chain3.userBalance
                          treasuryBalanceBefore chain3.treasuryBalance,
                        store, chain3, writes2 ++ [.pullTokens transferAmount]⟩

/-- Request body of `/authorize`; `none` models a missing or falsy
field. -/
structure AuthRequest where
  userAddress : Option String
  signature : Option String
  value : Option SignedValue
deriving DecidableEq, Repr

/-- The distinguishable JSON responses of the `/authorize` handler. -/
inductive AuthResponse where
  | missingFields
  | contractNotAccessible
  | authorized (signature : String)
deriving DecidableEq, Repr

/-- The `/authorize` handler of server.js, lines 180-238, translated
step for step: after the required-field check and a probe that the
TreasuryPuller contract answers `treasury()` (`treasuryAccessible`),
the supplied signature and value are stored unconditionally in the
`userSignatures` map and success is returned.  The handler performs no
signature recovery and no comparison against the claimed address. -/
def authorize (now : Int) (treasuryAccessible : Bool) (store : Store)
    (req : AuthRequest) : AuthResponse × Store :=
  match req.userAddress, req.signature, req.value with
  | some userAddress, some signature, some value =>
    if treasuryAccessible then
      (.authorized signature,
        userSignaturesSet store userAddress
          { signature := signature, value := value, timestamp := now })
    else
      (.contractNotAccessible, store)
  | _, _, _ => (.missingFields, store)

/-- Model of `Math.random()`: the handler draws a double `r` with
`0 ≤ r < 1`; exactly the doubles `num / 2 ^ 53` with `num < 2 ^ 53` are
producible, so the draw is modelled by the numerator `num`. -/
def jsRandomNonce (num : Nat) : Nat :=
  num * (2 ^ 48 - 1) / 2 ^ 53

/-- The successful response of `/get-signature-request`: the typed
value to sign plus the raw scaled amount, nonce and deadline that the
route also echoes. -/
structure SignatureRequest where
  value : SignedValue
  amountScaled : Nat
  nonce : Nat
  deadline : Int
deriving DecidableEq, Repr

/-- The `/get-signature-request` handler of server.js, lines 101-177:
validates the address, scales the human amount by the token decimals,
computes `deadline = now + 86400` and a random 48-bit nonce, and builds
the typed value (which carries the scaled amount and the nonce as
decimal strings and has no `permitted` field).  `none` models the 400
rejection for a bad address and the 500 from `parseUnits` throwing. -/
def getSignatureRequest (now : Int) (randNum : Nat) (decimals : Nat)
    (userAddress : String) (amount : DecimalAmount) : Option SignatureRequest :=
  if !(isAddress userAddress) then none
  else
    match parseUnits amount decimals with
    | none => none
    | some amountScaled =>
      let deadline := now + 86400
      let nonce := jsRandomNonce randNum
      some
        { value :=
            { message := complianceMessage
              amount := toString amountScaled
              token := tokenAddress
              nonce := nonce
              deadline := deadline
              permitted := none }
          amountScaled := amountScaled
          nonce := nonce
          deadline := deadline }

/-! ### Concrete fixtures used by the witnesses and counterexamples -/

/-- A syntactically valid user address. -/
def addrA : String := "0xaaaaaaaaaaaaaaaaaaaaaaaaaaaaaaaaaaaaaaaa"

/-- A signature string of the expected length 132 (0x plus 130 hex
characters). -/
def sig132 : String := "0x" ++ String.mk (List.replicate 130 'a')

/-- A signature string of length 120, shorter than the expected 132. -/
def sig120 : String := "0x" ++ String.mk (List.replicate 118 'a')

/-- Requested amount of 10 whole tokens. -/
def amt10 : DecimalAmount := ⟨10, 0, 0⟩

/-- Requested amount of 5 whole tokens. -/
def amt5 : DecimalAmount := ⟨5, 0, 0⟩

/-- A stored signed value for 10 tokens at 6 decimals whose `permitted`
field is populated (the only shape under which the amount check of the
transfer handler does not throw). -/
def valueSigned10 : SignedValue :=
  { message := complianceMessage
    amount := "10000000"
    token := tokenAddress
    nonce := 7
    deadline := 4102444800
    permitted := some ⟨"10000000"⟩ }

/-- A stored signed value of exactly the shape `/get-signature-request`
builds: scaled amount 10000000 (10 tokens at 6 decimals) and no
`permitted` field. -/
def valueBuilt10 : SignedValue :=
  { message := complianceMessage
    amount := "10000000"
    token := tokenAddress
    nonce := 7
    deadline := 4102444800
    permitted := none }

/-- A fully well-formed stored authorization for 10 tokens. -/
def authOk : AuthRecord := ⟨sig132, valueSigned10, 0⟩

/-- A stored authorization whose value has the shape built by
`/get-signature-request`. -/
def authBuilt : AuthRecord := ⟨sig132, valueBuilt10, 0⟩

/-- A stored authorization whose signature has length 120. -/
def authShortSig : AuthRecord := ⟨sig120, valueSigned10, 0⟩

/-- A stored signed value for 10 tokens whose deadline (UNIX second
1000) lies in the distant past. -/
def valueExpired10 : SignedValue :=
  { message := complianceMessage
    amount := "10000000"
    token := tokenAddress
    nonce := 7
    deadline := 1000
    permitted := some ⟨"10000000"⟩ }

/-- A stored authorization for 10 tokens whose deadline has long
passed. -/
def authExpired : AuthRecord := ⟨sig132, valueExpired10, 0⟩

/-- Chain state: 100 tokens of balance at 6 decimals, zero allowances. -/
def chainAllowance0 : Chain :=
  { userBalance := 100000000
    treasuryBalance := 0
    allowanceTreasury := 0
    allowancePermit2 := 0
    decimals := 6 }

/-- Chain state: ample treasury allowance, zero Permit2 allowance. -/
def chainPermit2Zero : Chain :=
  { userBalance := 100000000
    treasuryBalance := 0
    allowanceTreasury := 1000000000
    allowancePermit2 := 0
    decimals := 6 }

/-- Chain state: ample balance and both allowances. -/
def chainAmple : Chain :=
  { userBalance := 100000000
    treasuryBalance := 0
    allowanceTreasury := 1000000000
    allowancePermit2 := 1000000000
    decimals := 6 }

/-! ### Helper lemmas -/

/-- The nonce produced from any JavaScript `Math.random()` draw is
below `2 ^ 48`. -/
theorem jsRandomNonce_lt (num : Nat) (h : num < 2 ^ 53) : jsRandomNonce num < 2 ^ 48 := by
  unfold jsRandomNonce
  apply Nat.div_lt_of_lt_mul
  calc num * (2 ^ 48 - 1) ≤ num * 2 ^ 48 := Nat.mul_le_mul (le_refl num) (Nat.sub_le _ _)
    _ < 2 ^ 53 * 2 ^ 48 := (Nat.mul_lt_mul_right (by positivity)).mpr h

/-- Evaluation of `/get-signature-request` on a valid address and a
scalable amount. -/
theorem getSignatureRequest_eq (now : Int) (randNum dec : Nat) (u : String) (a : DecimalAmount)
    (haddr : isAddress u = true) (hf : a.fracDigits ≤ dec) :
    getSignatureRequest now randNum dec u a =
      some
        { value :=
            { message := complianceMessage
              amount := toString (a.intPart * 10 ^ dec + a.fracVal * 10 ^ (dec - a.fracDigits))
              token := tokenAddress
              nonce := jsRandomNonce randNum
              deadline := now + 86400
              permitted := none }
          amountScaled := a.intPart * 10 ^ dec + a.fracVal * 10 ^ (dec - a.fracDigits)
          nonce := jsRandomNonce randNum
          deadline := now + 86400 } := by
  simp only [getSignatureRequest, haddr, Bool.not_true, Bool.false_eq_true, if_false,
    parseUnits, if_pos hf]

/-- Scaling a decimal amount with `f ≤ dec` fractional digits is exact:
multiplying the scaled value by `10 ^ f` equals the numerator of the
human amount times `10 ^ dec`. -/
theorem scaledExact (i f v dec : Nat) (hf : f ≤ dec) :
    (i * 10 ^ dec + v * 10 ^ (dec - f)) * 10 ^ f = (i * 10 ^ f + v) * 10 ^ dec := by
  have hp : (10 : Nat) ^ (dec - f) * 10 ^ f = 10 ^ dec := by
    rw [← pow_add]
    congr 1
    omega
  calc (i * 10 ^ dec + v * 10 ^ (dec - f)) * 10 ^ f
      = i * 10 ^ dec * 10 ^ f + v * (10 ^ (dec - f) * 10 ^ f) := by ring
    _ = i * 10 ^ f * 10 ^ dec + v * 10 ^ dec := by rw [hp]; ring
    _ = (i * 10 ^ f + v) * 10 ^ dec := by ring

/-- Unscaling recovers the original decimal amount exactly: the integer
part and the (re-based) fractional part are returned unchanged. -/
theorem scaledRoundTrip (i f v dec : Nat) (hf : f ≤ dec) (hv : v < 10 ^ f) :
    formatUnits (i * 10 ^ dec + v * 10 ^ (dec - f)) dec = (i, v * 10 ^ (dec - f)) := by
  have hp : (10 : Nat) ^ f * 10 ^ (dec - f) = 10 ^ dec := by
    rw [← pow_add]
    congr 1
    omega
  have hr : v * 10 ^ (dec - f) < 10 ^ dec := by
    calc v * 10 ^ (dec - f) < 10 ^ f * 10 ^ (dec - f) :=
          (Nat.mul_lt_mul_right (by positivity)).mpr hv
      _ = 10 ^ dec := hp
  have hdiv : (i * 10 ^ dec + v * 10 ^ (dec - f)) / 10 ^ dec = i := by
    rw [Nat.mul_comm i, Nat.mul_add_div (by positivity), Nat.div_eq_of_lt hr, Nat.add_zero]
  have hmod : (i * 10 ^ dec + v * 10 ^ (dec - f)) % 10 ^ dec = v * 10 ^ (dec - f) := by
    rw [Nat.mul_comm i, Nat.mul_add_mod, Nat.mod_eq_of_lt hr]
  simp [formatUnits, hdiv, hmod]

/-! ### Claim theorems -/

set_option maxRecDepth 100000 in
/-- C1: the `/authorize` handler is documented as verifying the
signature, but it performs no recovery at all: a ten-character garbage
string that could never be a recoverable 65-byte signature is accepted,
the call returns success, and an Authorization record holding that
garbage signature is stored for the user — contradicting the claim that
a record is stored only if recovery succeeds and matches the address,
and that a malformed signature fails with VerificationFailed. -/
theorem authorize_stores_signature_without_verification :
    (authorize 1000 true [] ⟨some addrA, some "0xdeadbeef", some valueBuilt10⟩).1
        = .authorized "0xdeadbeef"
      ∧ userSignaturesGet
          (authorize 1000 true [] ⟨some addrA, some "0xdeadbeef", some valueBuilt10⟩).2 addrA
        = some ⟨"0xdeadbeef", valueBuilt10, 1000⟩ := by
  decide

set_option maxRecDepth 100000 in
/-- C2: counterexample.  For a user with no stored authorization whose
allowance to the treasury puller is zero, a 10-token transfer request
does not return the no-authorization error and does submit a chain
write: the handler auto-approves (one approval transaction) and then
fails the stale allowance check, all before the stored-authorization
lookup is reached.  This refutes the claim that such a call returns
NoAuthorization and performs no chain writes. -/
theorem transfer_without_authorization_claim_false :
    userSignaturesGet [] addrA = none
      ∧ (transferTokens 1700000000 none none [] chainAllowance0
            ⟨some addrA, some amt10⟩).resp = .insufficientAllowance 0 10000000
      ∧ (transferTokens 1700000000 none none [] chainAllowance0
            ⟨some addrA, some amt10⟩).resp ≠ .noSignatureFound
      ∧ (transferTokens 1700000000 none none [] chainAllowance0
            ⟨some addrA, some amt10⟩).writes = [.approveTreasuryMax]
      ∧ (transferTokens 1700000000 none none [] chainAllowance0
            ⟨some addrA, some amt10⟩).writes ≠ [] := by
  decide

/-- C2: amended.  For a user with no stored authorization, the transfer
operation returns the no-authorization error with no chain write only
when the pre-existing treasury-puller allowance is positive and already
covers the requested amount (and the balance check passes); when the
allowance is zero or insufficient the handler instead submits an
approval transaction and fails with InsufficientAllowance before the
stored-authorization lookup. -/
theorem transfer_without_authorization_behavior (now : Int)
    (a1 a2 : Option (Bool × Bool)) (store : Store) (chain : Chain)
    (u : String) (amt : DecimalAmount) (t : Nat)
    (haddr : isAddress u = true)
    (hparse : parseUnits amt chain.decimals = some t)
    (hbal : t ≤ chain.userBalance)
    (hpos : 0 < chain.allowanceTreasury)
    (hallow : t ≤ chain.allowanceTreasury)
    (hnone : userSignaturesGet store u = none) :
    (transferTokens now a1 a2 store chain ⟨some u, some amt⟩).resp = .noSignatureFound
      ∧ (transferTokens now a1 a2 store chain ⟨some u, some amt⟩).writes = [] := by
  have hna : (chain.allowanceTreasury == 0 || decide (chain.allowanceTreasury < t)) = false := by
    have h1 : chain.allowanceTreasury ≠ 0 := by omega
    have h2 : ¬ chain.allowanceTreasury < t := by omega
    simp [h1, h2]
  have hnb : ¬ chain.userBalance < t := by omega
  have hnal : ¬ chain.allowanceTreasury < t := by omega
  constructor <;>
    simp only [transferTokens, haddr, Bool.not_true, Bool.false_eq_true, if_false, hparse,
      if_neg hnb, hna, approveTreasuryIfNeeded, approveTreasuryWrites, if_neg hnal, hnone]

set_option maxRecDepth 100000 in
/-- C2: witness for the amended theorem at a concrete state with ample
pre-existing allowance. -/
theorem transfer_without_authorization_behavior_witness :
    (transferTokens 0 none none [] chainAmple ⟨some addrA, some amt10⟩).resp = .noSignatureFound
      ∧ (transferTokens 0 none none [] chainAmple ⟨some addrA, some amt10⟩).writes = [] :=
  transfer_without_authorization_behavior 0 none none [] chainAmple addrA amt10 10000000
    (by decide) (by decide) (by decide) (by decide) (by decide) (by decide)

set_option maxRecDepth 100000 in
/-- C3: the end-to-end auto-approval path cannot succeed.  With a fully
valid stored authorization for 10 tokens, user balance of 100 tokens
(at 6 decimals) and allowance 0, the handler does submit the approval
transaction, but it then re-checks the never-refreshed local
`allowance` variable (still 0) and aborts with InsufficientAllowance:
the pull is never submitted, so the final result can show neither
`approval.required = true` nor an after-balance of 90. -/
theorem transfer_auto_approval_stale_allowance_bug :
    (transferTokens 1700000000 (some (true, true)) (some (true, true)) [(addrA, authOk)]
          chainAllowance0 ⟨some addrA, some amt10⟩).resp = .insufficientAllowance 0 10000000
      ∧ (transferTokens 1700000000 (some (true, true)) (some (true, true)) [(addrA, authOk)]
          chainAllowance0 ⟨some addrA, some amt10⟩).writes = [.approveTreasuryMax] := by
  decide

set_option maxRecDepth 100000 in
/-- C4: the amount-binding check dereferences `value.permitted.amount`,
a field that the value built by `/get-signature-request` does not have.
For a stored authorization whose value has exactly the built shape
(signed amount 10000000, no `permitted` field) and a differing request
of 5 tokens (5000000), the handler throws a TypeError that surfaces as
a 500 internal error instead of returning AmountMismatch with both
values echoed. -/
theorem transfer_amount_mismatch_throws_on_built_value :
    valueBuilt10.permitted = none
      ∧ valueBuilt10.amount = "10000000"
      ∧ parseUnits amt5 chainAmple.decimals = some 5000000
      ∧ valueBuilt10.amount ≠ toString 5000000
      ∧ (transferTokens 1700000000 none none [(addrA, authBuilt)] chainAmple
          ⟨some addrA, some amt5⟩).resp
        = .internalError "Cannot read properties of undefined" := by
  decide

set_option maxRecDepth 100000 in
/-- C5: counterexample.  A transfer request made long after the stored
deadline does not return PermitExpired when the treasury-puller
allowance is zero: the handler submits an approval transaction and then
fails the stale allowance gate with InsufficientAllowance before the
deadline check is ever reached, so no PermitExpired and no
`expiredBy` overrun are reported.  This refutes the claim that every
transfer request made after the deadline returns PermitExpired. -/
theorem transfer_after_deadline_claim_false :
    authExpired.value.deadline < 1700000000
      ∧ (transferTokens 1700000000 none none [(addrA, authExpired)] chainAllowance0
            ⟨some addrA, some amt10⟩).resp = .insufficientAllowance 0 10000000
      ∧ (transferTokens 1700000000 none none [(addrA, authExpired)] chainAllowance0
            ⟨some addrA, some amt10⟩).resp
          ≠ .permitExpired 1700000000 authExpired.value.deadline
              (1700000000 - authExpired.value.deadline)
      ∧ (transferTokens 1700000000 none none [(addrA, authExpired)] chainAllowance0
            ⟨some addrA, some amt10⟩).writes = [.approveTreasuryMax] := by
  decide

/-- C5: amended.  A transfer request made after the stored deadline
returns PermitExpired reporting `expiredBy = now - deadline`, which is
strictly positive, provided the request reaches the freshness check
(valid address, parsable amount, sufficient balance, positive
pre-existing allowance covering the amount, stored authorization
present); when the allowance is zero or insufficient, the handler
instead submits an approval transaction and fails with
InsufficientAllowance before the deadline is ever examined. -/
theorem transfer_after_deadline_returns_permit_expired (now : Int)
    (a1 a2 : Option (Bool × Bool)) (store : Store) (chain : Chain)
    (u : String) (amt : DecimalAmount) (t : Nat) (auth : AuthRecord)
    (haddr : isAddress u = true)
    (hparse : parseUnits amt chain.decimals = some t)
    (hbal : t ≤ chain.userBalance)
    (hpos : 0 < chain.allowanceTreasury)
    (hallow : t ≤ chain.allowanceTreasury)
    (hauth : userSignaturesGet store u = some auth)
    (hexp : auth.value.deadline < now) :
    (transferTokens now a1 a2 store chain ⟨some u, some amt⟩).resp
        = .permitExpired now auth.value.deadline (now - auth.value.deadline)
      ∧ 0 < now - auth.value.deadline := by
  have hna : (chain.allowanceTreasury == 0 || decide (chain.allowanceTreasury < t)) = false := by
    have h1 : chain.allowanceTreasury ≠ 0 := by omega
    have h2 : ¬ chain.allowanceTreasury < t := by omega
    simp [h1, h2]
  have hnb : ¬ chain.userBalance < t := by omega
  have hnal : ¬ chain.allowanceTreasury < t := by omega
  refine ⟨?_, by omega⟩
  simp only [transferTokens, haddr, Bool.not_true, Bool.false_eq_true, if_false, hparse,
    if_neg hnb, hna, approveTreasuryIfNeeded, approveTreasuryWrites, if_neg hnal, hauth,
    if_pos hexp]

set_option maxRecDepth 100000 in
/-- C5: witness for the amended theorem at a concrete state one second
past the deadline with ample pre-existing allowance. -/
theorem transfer_after_deadline_returns_permit_expired_witness :
    (transferTokens 4102444801 (some (true, true)) (some (true, true)) [(addrA, authOk)]
          chainAmple ⟨some addrA, some amt10⟩).resp
        = .permitExpired 4102444801 authOk.value.deadline (4102444801 - authOk.value.deadline)
      ∧ 0 < (4102444801 : Int) - authOk.value.deadline :=
  transfer_after_deadline_returns_permit_expired 4102444801 (some (true, true))
    (some (true, true)) [(addrA, authOk)] chainAmple addrA amt10 10000000 authOk
    (by decide) (by decide) (by decide) (by decide) (by decide) (by decide) (by decide)

set_option maxRecDepth 100000 in
/-- C6: counterexample.  A stored signature of length 120 is indeed
rejected with the invalid-signature-format error, but not before any
chain call: with zero Permit2 allowance the handler has already
submitted a Permit2 approval transaction (after reading allowance,
balance, decimals, symbol and treasury) by the time the length check
runs.  This refutes the claim that the rejection happens before any
chain call. -/
theorem short_signature_claim_false :
    authShortSig.signature.length = 120
      ∧ (transferTokens 1700000000 none none [(addrA, authShortSig)] chainPermit2Zero
            ⟨some addrA, some amt10⟩).resp = .invalidSignatureFormat 120
      ∧ (transferTokens 1700000000 none none [(addrA, authShortSig)] chainPermit2Zero
            ⟨some addrA, some amt10⟩).writes = [.approvePermit2Max]
      ∧ (transferTokens 1700000000 none none [(addrA, authShortSig)] chainPermit2Zero
            ⟨some addrA, some amt10⟩).writes ≠ [] := by
  decide

/-- C6: amended.  A transfer request whose stored signature length is
not 132 is rejected with the invalid-signature-format error, but only
at the execution step: the rejection comes after the chain reads, after
the treasury-puller allowance gate, and after a Permit2 approval
transaction has been submitted whenever the Permit2 allowance was below
the requested amount — not before any chain call. -/
theorem short_signature_rejected_after_chain_calls (now : Int)
    (a1 a2 : Option (Bool × Bool)) (store : Store) (chain : Chain)
    (u : String) (amt : DecimalAmount) (t : Nat) (auth : AuthRecord) (p : PermittedAmount)
    (haddr : isAddress u = true)
    (hparse : parseUnits amt chain.decimals = some t)
    (hbal : t ≤ chain.userBalance)
    (hpos : 0 < chain.allowanceTreasury)
    (hallow : t ≤ chain.allowanceTreasury)
    (hauth : userSignaturesGet store u = some auth)
    (hfresh : now ≤ auth.value.deadline)
    (hperm : auth.value.permitted = some p)
    (hamt : p.amount = toString t)
    (hsig : auth.signature.length ≠ 132) :
    (transferTokens now a1 a2 store chain ⟨some u, some amt⟩).resp
        = .invalidSignatureFormat auth.signature.length
      ∧ (transferTokens now a1 a2 store chain ⟨some u, some amt⟩).writes
        = (if chain.allowancePermit2 < t then [.approvePermit2Max] else []) := by
  have hna : (chain.allowanceTreasury == 0 || decide (chain.allowanceTreasury < t)) = false := by
    have h1 : chain.allowanceTreasury ≠ 0 := by omega
    have h2 : ¬ chain.allowanceTreasury < t := by omega
    simp [h1, h2]
  have hnb : ¬ chain.userBalance < t := by omega
  have hnal : ¬ chain.allowanceTreasury < t := by omega
  have hnexp : ¬ now > auth.value.deadline := by omega
  have hmatch : ¬ p.amount ≠ toString t := by simp [hamt]
  refine ⟨?_, ?_⟩
  · simp only [transferTokens, haddr, Bool.not_true, Bool.false_eq_true, if_false, hparse,
      if_neg hnb, hna, approveTreasuryIfNeeded, approveTreasuryWrites, if_neg hnal, hauth,
      if_neg hnexp, hperm, if_neg hmatch, if_pos hsig]
  · simp only [transferTokens, haddr, Bool.not_true, Bool.false_eq_true, if_false, hparse,
      if_neg hnb, hna, approveTreasuryIfNeeded, approveTreasuryWrites, if_neg hnal, hauth,
      if_neg hnexp, hperm, if_neg hmatch, if_pos hsig]
    by_cases hp2 : chain.allowancePermit2 < t <;> simp [hp2]

set_option maxRecDepth 100000 in
/-- C6: witness for the amended theorem with ample Permit2 allowance,
where the rejection is reached with no Permit2 approval write. -/
theorem short_signature_rejected_after_chain_calls_witness :
    (transferTokens 1700000000 (some (true, true)) none [(addrA, authShortSig)] chainAmple
          ⟨some addrA, some amt10⟩).resp
        = .invalidSignatureFormat authShortSig.signature.length
      ∧ (transferTokens 1700000000 (some (true, true)) none [(addrA, authShortSig)] chainAmple
          ⟨some addrA, some amt10⟩).writes
        = (if chainAmple.allowancePermit2 < 10000000 then [.approvePermit2Max] else []) :=
  short_signature_rejected_after_chain_calls 1700000000 (some (true, true)) none
    [(addrA, authShortSig)] chainAmple addrA amt10 10000000 authShortSig ⟨"10000000"⟩
    (by decide) (by decide) (by decide) (by decide) (by decide) (by decide) (by decide)
    (by decide) (by decide) (by decide)

/-- C7: for every valid address and well-formed decimal amount with no
more fractional digits than the token has decimals, the build operation
produces a value whose amount string renders the scaled integer, the
scaled integer equals the human amount times `10 ^ decimals` exactly
(stated denominator-free: scaled times `10 ^ f` equals the amount
numerator times `10 ^ decimals`), and unscaling recovers the original
decimal value exactly. -/
theorem build_scales_amount_exactly (now : Int) (randNum dec : Nat) (u : String)
    (a : DecimalAmount)
    (haddr : isAddress u = true)
    (hf : a.fracDigits ≤ dec)
    (hv : a.fracVal < 10 ^ a.fracDigits) :
    ∃ b, getSignatureRequest now randNum dec u a = some b
      ∧ b.value.amount = toString b.amountScaled
      ∧ b.amountScaled * 10 ^ a.fracDigits
          = (a.intPart * 10 ^ a.fracDigits + a.fracVal) * 10 ^ dec
      ∧ formatUnits b.amountScaled dec = (a.intPart, a.fracVal * 10 ^ (dec - a.fracDigits)) :=
  ⟨_, getSignatureRequest_eq now randNum dec u a haddr hf, rfl,
    scaledExact a.intPart a.fracDigits a.fracVal dec hf,
    scaledRoundTrip a.intPart a.fracDigits a.fracVal dec hf hv⟩

set_option maxRecDepth 100000 in
/-- C7: witness at the amount 12.34 with 6 token decimals. -/
theorem build_scales_amount_exactly_witness :
    ∃ b, getSignatureRequest 0 0 6 addrA ⟨12, 2, 34⟩ = some b
      ∧ b.value.amount = toString b.amountScaled
      ∧ b.amountScaled * 10 ^ 2 = (12 * 10 ^ 2 + 34) * 10 ^ 6
      ∧ formatUnits b.amountScaled 6 = (12, 34 * 10 ^ (6 - 2)) :=
  build_scales_amount_exactly 0 0 6 addrA ⟨12, 2, 34⟩ (by decide) (by decide) (by decide)

/-- C8: for every valid build request the produced deadline is exactly
the current time plus the fixed 86400-second validity window, and the
nonce computed from any `Math.random()` draw (a dyadic rational
`num / 2 ^ 53` with `num < 2 ^ 53`) satisfies `nonce < 2 ^ 48`. -/
theorem build_deadline_and_nonce_range (now : Int) (randNum dec : Nat) (u : String)
    (a : DecimalAmount)
    (hr : randNum < 2 ^ 53)
    (haddr : isAddress u = true)
    (hf : a.fracDigits ≤ dec) :
    ∃ b, getSignatureRequest now randNum dec u a = some b
      ∧ b.deadline = now + 86400
      ∧ b.nonce < 2 ^ 48 :=
  ⟨_, getSignatureRequest_eq now randNum dec u a haddr hf, rfl, jsRandomNonce_lt randNum hr⟩

set_option maxRecDepth 100000 in
/-- C8: witness at a concrete random draw. -/
theorem build_deadline_and_nonce_range_witness :
    ∃ b, getSignatureRequest 1700000000 123456789 6 addrA amt10 = some b
      ∧ b.deadline = 1700000000 + 86400
      ∧ b.nonce < 2 ^ 48 :=
  build_deadline_and_nonce_range 1700000000 123456789 6 addrA amt10
    (by decide) (by decide) (by decide)

/-- C9: the `/transfer-tokens` response, the resulting store and chain
state and the submitted writes are all independent of the outcomes of
the two on-chain checkAuthorization queries: two runs that are
identical except for those outcomes — whether a pair of booleans or a
thrown error (`none`) — produce identical results, because the handler
only logs them and proceeds. -/
theorem transfer_independent_of_checkAuthorization (now : Int)
    (a1 a2 b1 b2 : Option (Bool × Bool)) (store : Store) (chain : Chain)
    (req : TransferRequest) :
    transferTokens now a1 a2 store chain req = transferTokens now b1 b2 store chain req :=
  rfl

/-- C10: the `/transfer-tokens` handler never mutates the
`userSignatures` store — on every path, success or failure, the store
after the call equals the store before, so every stored authorization
(in particular the one just used) remains available unchanged for any
number of subsequent transfer calls. -/
theorem transfer_preserves_authorization_store (now : Int)
    (a1 a2 : Option (Bool × Bool)) (store : Store) (chain : Chain)
    (req : TransferRequest) :
    (transferTokens now a1 a2 store chain req).store = store
      ∧ ∀ u, userSignaturesGet (transferTokens now a1 a2 store chain req).store u
          = userSignaturesGet store u := by
  have h : (transferTokens now a1 a2 store chain req).store = store := by
    rcases req with ⟨_ | u, _ | a⟩
    all_goals simp only [transferTokens]
    all_goals repeat' split
    all_goals rfl
  exact ⟨h, fun u => by rw [h]⟩
